import Mathlib

/-!
Verification development for the phishing-trainer repository's tracking-link
and campaign/target state subsystem.

The definitions below are a shallow embedding of the Python sources:

* `services/tracking_service.py` — `TrackingService.__init__`,
  `_generate_signature`, `verify_signature`, `generate_tracking_url`,
  `record_click`, `record_quiz_completion`;
* `phishing_app/persistence.py` — `generate_tracking_url`,
  `track_click_and_save`;
* `services/campaign_manager.py` — `CampaignManager.update_target_status`;
* `models/campaign.py` — `Target`, `CampaignMetrics`, `Campaign.update_metrics`.

Python byte strings are `List Nat` (each element < 256), machine words are
`Nat` reduced mod 2^32 where the source's arithmetic is 32-bit, Python floats
used only as times/rates are modelled as `ℚ`, and Python dicts keyed by id are
association lists (insertion ordered, unique keys, like a Python dict).
Operations that can raise return `Except`.
-/

namespace PhishTrain

/-! ## Bytes and UTF-8 ( `str.encode()` ) -/

/-- UTF-8 encoding of one Unicode code point, as byte values. This is what
Python's `str.encode()` produces per character. -/
def utf8EncodeCP (n : Nat) : List Nat :=
  if n < 128 then [n]
  else if n < 2048 then [192 + n / 64, 128 + n % 64]
  else if n < 65536 then [224 + n / 4096, 128 + n / 64 % 64, 128 + n % 64]
  else [240 + n / 262144, 128 + n / 4096 % 64, 128 + n / 64 % 64, 128 + n % 64]

/-- `s.encode()`: the UTF-8 bytes of a string. -/
def strBytes (s : String) : List Nat :=
  (s.data.map Char.toNat).flatMap utf8EncodeCP

/-! ## SHA-256 (`hashlib.sha256`), bytes in, 32 digest bytes out -/

/-- Reduce modulo 2^32. -/
def m32 (x : Nat) : Nat := x % 4294967296

/-- 32-bit modular addition. -/
def add32 (a b : Nat) : Nat := (a + b) % 4294967296

/-- Rotate a 32-bit word right by `n`. -/
def rotr32 (n x : Nat) : Nat := m32 ((x >>> n) ||| (x <<< (32 - n)))

/-- 32-bit complement. -/
def not32 (x : Nat) : Nat := Nat.xor x 4294967295

def bigSigma0 (x : Nat) : Nat := (rotr32 2 x) ^^^ (rotr32 13 x) ^^^ (rotr32 22 x)

def bigSigma1 (x : Nat) : Nat := (rotr32 6 x) ^^^ (rotr32 11 x) ^^^ (rotr32 25 x)

def smallSigma0 (x : Nat) : Nat := (rotr32 7 x) ^^^ (rotr32 18 x) ^^^ (x >>> 3)

def smallSigma1 (x : Nat) : Nat := (rotr32 17 x) ^^^ (rotr32 19 x) ^^^ (x >>> 10)

def chFun (e f g : Nat) : Nat := (e &&& f) ^^^ ((not32 e) &&& g)

def majFun (a b c : Nat) : Nat := (a &&& b) ^^^ (a &&& c) ^^^ (b &&& c)

/-- The 64 SHA-256 round constants. -/
def kConstants : List Nat :=
  [1116352408, 1899447441, 3049323471, 3921009573,
   961987163, 1508970993, 2453635748, 2870763221,
   3624381080, 310598401, 607225278, 1426881987,
   1925078388, 2162078206, 2614888103, 3248222580,
   3835390401, 4022224774, 264347078, 604807628,
   770255983, 1249150122, 1555081692, 1996064986,
   2554220882, 2821834349, 2952996808, 3210313671,
   3336571891, 3584528711, 113926993, 338241895,
   666307205, 773529912, 1294757372, 1396182291,
   1695183700, 1986661051, 2177026350, 2456956037,
   2730485921, 2820302411, 3259730800, 3345764771,
   3516065817, 3600352804, 4094571909, 275423344,
   430227734, 506948616, 659060556, 883997877,
   958139571, 1322822218, 1537002063, 1747873779,
   1955562222, 2024104815, 2227730452, 2361852424,
   2428436474, 2756734187, 3204031479, 3329325298]

/-- The eight 32-bit words of a SHA-256 hash state. -/
structure HState where
  a : Nat
  b : Nat
  c : Nat
  d : Nat
  e : Nat
  f : Nat
  g : Nat
  h : Nat
deriving DecidableEq, Repr

/-- Initial SHA-256 hash state. -/
def initialHState : HState :=
  ⟨1779033703, 3144134277, 1013904242, 2773480762,
   1359893119, 2600822924, 528734635, 1541459225⟩

/-- One SHA-256 compression round, given `(k_i, w_i)`. -/
def roundStep (s : HState) (kw : Nat × Nat) : HState :=
  let t1 := add32 s.h (add32 (bigSigma1 s.e) (add32 (chFun s.e s.f s.g) (add32 kw.1 kw.2)))
  let t2 := add32 (bigSigma0 s.a) (majFun s.a s.b s.c)
  ⟨add32 t1 t2, s.a, s.b, s.c, add32 s.d t1, s.e, s.f, s.g⟩

/-- One step of the message-schedule extension, on the reversed schedule. -/
def extendOnce (rws : List Nat) : List Nat :=
  add32 (smallSigma1 (rws.getD 1 0))
    (add32 (rws.getD 6 0) (add32 (smallSigma0 (rws.getD 14 0)) (rws.getD 15 0))) :: rws

/-- Extend 16 message words to the 64-word schedule. -/
def schedule (ws : List Nat) : List Nat :=
  (extendOnce^[48] ws.reverse).reverse

/-- Compress one 512-bit block (given as its 16 words) into the state. -/
def compressBlock (s : HState) (ws : List Nat) : HState :=
  let t := (List.zip kConstants (schedule ws)).foldl roundStep s
  ⟨add32 s.a t.a, add32 s.b t.b, add32 s.c t.c, add32 s.d t.d,
   add32 s.e t.e, add32 s.f t.f, add32 s.g t.g, add32 s.h t.h⟩

/-- Big-endian 32-bit words from bytes. -/
def bytesToWordsBE : List Nat → List Nat
  | b0 :: b1 :: b2 :: b3 :: rest =>
      (b0 * 16777216 + b1 * 65536 + b2 * 256 + b3) :: bytesToWordsBE rest
  | _ => []

/-- Big-endian 8-byte encoding of the 64-bit message bit length. -/
def lenBytesBE (n : Nat) : List Nat :=
  [n / 72057594037927936 % 256, n / 281474976710656 % 256,
   n / 1099511627776 % 256, n / 4294967296 % 256,
   n / 16777216 % 256, n / 65536 % 256, n / 256 % 256, n % 256]

/-- SHA-256 padding: append `0x80`, zeros, and the 64-bit bit length. -/
def padMessage (msg : List Nat) : List Nat :=
  msg ++ 128 :: List.replicate ((119 - msg.length % 64) % 64) 0 ++ lenBytesBE (8 * msg.length)

/-- Split a byte string into 64-byte blocks; the fuel argument bounds the
number of blocks (each step consumes at least one byte, so the byte count is
always enough fuel). -/
def toBlocksF : Nat → List Nat → List (List Nat)
  | _, [] => []
  | 0, _ => []
  | fuel + 1, b :: bs => ((b :: bs).take 64) :: toBlocksF fuel ((b :: bs).drop 64)

/-- Split a byte string into 64-byte blocks. -/
def toBlocks (l : List Nat) : List (List Nat) := toBlocksF l.length l

/-- Big-endian bytes of one 32-bit word. -/
def wordBytesBE (w : Nat) : List Nat :=
  [w / 16777216 % 256, w / 65536 % 256, w / 256 % 256, w % 256]

/-- The 32 digest bytes of a final hash state. -/
def stateBytes (s : HState) : List Nat :=
  wordBytesBE s.a ++ wordBytesBE s.b ++ wordBytesBE s.c ++ wordBytesBE s.d ++
  wordBytesBE s.e ++ wordBytesBE s.f ++ wordBytesBE s.g ++ wordBytesBE s.h

/-- SHA-256 of a byte string, as its 32 digest bytes. -/
def sha256 (msg : List Nat) : List Nat :=
  stateBytes ((toBlocks (padMessage msg)).foldl
    (fun s blk => compressBlock s (bytesToWordsBE blk)) initialHState)

/-! ## HMAC-SHA256 (`hmac.new(key, msg, hashlib.sha256)`) -/

/-- HMAC-SHA256 digest bytes, per RFC 2104 with a 64-byte block. -/
def hmacSha256 (key msg : List Nat) : List Nat :=
  let k0 := if 64 < key.length then sha256 key else key
  let kp := k0 ++ List.replicate (64 - k0.length) 0
  sha256 ((kp.map (Nat.xor 92)) ++ sha256 ((kp.map (Nat.xor 54)) ++ msg))

/-! ## Hex encoding (`.hexdigest()`) -/

/-- The sixteen lowercase hex digits. -/
def hexDigitChars : List Char := "0123456789abcdef".data

/-- The lowercase hex digit for a value below 16. -/
def hexChar (n : Nat) : Char := hexDigitChars.getD n '0'

/-- Lowercase hex string of a byte string — `.hexdigest()` composed with the
digest bytes. -/
def toHex (bs : List Nat) : String :=
  String.mk (bs.flatMap fun b => [hexChar (b / 16), hexChar (b % 16)])

/-! ## `services/tracking_service.py` — `TrackingService` -/

/-- ASCII check on a string: every character's code point is below 128
(Python `str.isascii()`). -/
def isAsciiStr (s : String) : Bool :=
  s.data.all fun c => decide (c.toNat < 128)

/-- Python stdlib `hmac.compare_digest` restricted to `str` arguments, per its
documented contract: both strings must be ASCII (as hexdigests are), otherwise
a `TypeError` is raised; for ASCII strings it is a (constant-time) equality
test. The timing aspect has no observable counterpart in a functional
embedding; the value returned is equality. -/
def compareDigest (a b : String) : Except String Bool :=
  if isAsciiStr a then
    if isAsciiStr b then Except.ok (a == b)
    else Except.error "TypeError"
  else Except.error "TypeError"

namespace TrackingService

/-- `TrackingService.__init__` (tracking_service.py line 22): the signing key
is `os.environ.get("TRACKING_SECRET_KEY", "default-secret-key")`. The
argument is the result of the environment lookup. -/
def initSecretKey (envTrackingSecret : Option String) : String :=
  envTrackingSecret.getD "default-secret-key"

/-- `TrackingService._generate_signature`: the lowercase hexdigest of
HMAC-SHA256 over the UTF-8 bytes of `"{campaign_id}|{recipient_id}"` under
the UTF-8 bytes of the instance's secret key. -/
def generate_signature (secretKey campaignId recipientId : String) : String :=
  toHex (hmacSha256 (strBytes secretKey) (strBytes (campaignId ++ "|" ++ recipientId)))

/-- `TrackingService.verify_signature`: recompute the expected signature and
compare with `hmac.compare_digest(signature, expected_signature)`. -/
def verify_signature (secretKey campaignId recipientId signature : String) :
    Except String Bool :=
  compareDigest signature (generate_signature secretKey campaignId recipientId)

/-- `TrackingService.generate_tracking_url`: an f-string concatenation
`f"{base_url}?track=1&cid={campaign_id}&rid={recipient_id}&sig={signature}"`,
then `&key=value` appended for each UTM parameter in order. No component is
escaped or validated anywhere in the function. -/
def generate_tracking_url (baseUrl secretKey campaignId recipientId : String)
    (utmParams : List (String × String)) : String :=
  let signature := generate_signature secretKey campaignId recipientId
  utmParams.foldl (fun u kv => u ++ "&" ++ kv.1 ++ "=" ++ kv.2)
    (baseUrl ++ "?track=1&cid=" ++ campaignId ++ "&rid=" ++ recipientId ++
      "&sig=" ++ signature)

/-- One click record as built by `TrackingService.record_click` (the ISO
display timestamp duplicates `ts` and is omitted; `additional_data` is not
used by any caller and is omitted). -/
structure ClickEvent where
  id : String
  ts : Nat
  campaign_id : String
  recipient_id : String
  ip_hash : Option String
  user_agent : Option String
deriving DecidableEq, Repr

/-- One quiz-completion record as built by
`TrackingService.record_quiz_completion`. -/
structure QuizEvent where
  id : String
  ts : Nat
  campaign_id : String
  recipient_id : String
  quiz_score : Int
  quiz_answers : List (String × String)
deriving DecidableEq, Repr

/-- An entry of the `clicks_data` list, which holds both click and quiz
records. -/
inductive TrackEvent where
  | click : ClickEvent → TrackEvent
  | quiz : QuizEvent → TrackEvent
deriving DecidableEq, Repr

/-- `TrackingService.record_click`: hash the IP if given, build the event,
append it to `clicks_data` unconditionally, and return it. The fresh UUID and
the clock reading are ambient inputs (`eventId`, `ts`). Note the source takes
no signature argument and performs no verification of any kind. -/
def record_click (eventId : String) (ts : Nat) (campaignId recipientId : String)
    (ip userAgent : Option String) (clicksData : List TrackEvent) :
    List TrackEvent × ClickEvent :=
  let ev : ClickEvent :=
    { id := eventId, ts := ts, campaign_id := campaignId,
      recipient_id := recipientId,
      ip_hash := ip.map (fun s => toHex (sha256 (strBytes s))),
      user_agent := userAgent }
  (clicksData ++ [TrackEvent.click ev], ev)

/-- `TrackingService.record_quiz_completion`: build the quiz event and append
it to `clicks_data` unconditionally; the source consults no target state and
checks nothing. -/
def record_quiz_completion (eventId : String) (ts : Nat)
    (campaignId recipientId : String) (score : Int)
    (answers : List (String × String)) (clicksData : List TrackEvent) :
    List TrackEvent × QuizEvent :=
  let ev : QuizEvent :=
    { id := eventId, ts := ts, campaign_id := campaignId,
      recipient_id := recipientId, quiz_score := score,
      quiz_answers := answers }
  (clicksData ++ [TrackEvent.quiz ev], ev)

end TrackingService

/-! ## Association lists standing for Python dicts keyed by id -/

/-- `d[k]` / `k in d` for an insertion-ordered dict with unique keys. -/
def assocFind {α : Type} (k : String) : List (String × α) → Option α
  | [] => none
  | (k', v) :: rest => if k' = k then some v else assocFind k rest

/-- `d[k] = v` at an existing key: replace the value in place. -/
def assocSet {α : Type} (k : String) (v : α) : List (String × α) → List (String × α)
  | [] => []
  | (k', v') :: rest =>
      if k' = k then (k', v) :: rest else (k', v') :: assocSet k v rest

/-! ## `phishing_app/persistence.py` -/

namespace Persistence

/-- A recipient dict of the persistence-layer campaign store, with the fields
the click path reads and writes. Timestamps are `datetime.now().timestamp()`
values, modelled as `ℚ`. -/
structure PRecipient where
  id : String
  email : String
  status : String
  send_ts : Option ℚ
  click_ts : Option ℚ
deriving DecidableEq, Repr

/-- A campaign dict of the persistence-layer store, restricted to the fields
the click path touches or reads. -/
structure PCampaign where
  name : String
  status : String
  recipients : List PRecipient
deriving DecidableEq, Repr

/-- `phishing_app.persistence.generate_tracking_url`: a fixed localhost base
with `cid`/`rid` query parameters — note: no `track` marker and no signature
at all. -/
def generate_tracking_url (campaignId recipientId : String) : String :=
  "http://localhost:8501/track" ++ "?cid=" ++ campaignId ++ "&rid=" ++ recipientId

/-- The `for recipient in campaign['recipients']` loop of
`track_click_and_save`: on the first recipient whose `id` matches, set
`click_ts` to now and `status` to `'clicked'` and stop (the source returns
from inside the loop); `none` when no recipient matches. -/
def markClicked (now : ℚ) (recipientId : String) :
    List PRecipient → Option (List PRecipient)
  | [] => none
  | r :: rs =>
      if r.id = recipientId then
        some ({ r with click_ts := some now, status := "clicked" } :: rs)
      else
        (markClicked now recipientId rs).map (r :: ·)

/-- `phishing_app.persistence.track_click_and_save`: when both ids are
non-empty (Python truthiness) and the campaign key exists, mutate the first
matching recipient via the loop above and save; in every other case return
`False` with the store unchanged. The `now` clock reading is an ambient
input; loading and saving the store are the state argument and result. -/
def track_click_and_save (now : ℚ) (campaigns : List (String × PCampaign))
    (campaignId recipientId : String) : Bool × List (String × PCampaign) :=
  if campaignId ≠ "" ∧ recipientId ≠ "" then
    match assocFind campaignId campaigns with
    | some campaign =>
        match markClicked now recipientId campaign.recipients with
        | some rs =>
            (true, assocSet campaignId { campaign with recipients := rs } campaigns)
        | none => (false, campaigns)
    | none => (false, campaigns)
  else (false, campaigns)

end Persistence

/-! ## `services/campaign_manager.py` — `CampaignManager.update_target_status` -/

namespace CampaignManager

/-- A target dict of the campaign-manager store, with the fields
`update_target_status` touches. `additional_data` is modelled by its one
relevant use: an optional `quiz_score` entry. -/
structure MTarget where
  id : String
  email : String
  status : String
  status_updated_at : Option ℚ
  quiz_score : Option Int
deriving DecidableEq, Repr

/-- The stored `metrics` dict of a campaign-manager campaign. -/
structure MMetrics where
  total_targets : Nat
  emails_sent : Nat
  emails_opened : Nat
  links_clicked : Nat
  quizzes_completed : Nat
  avg_quiz_score : ℚ
deriving DecidableEq, Repr

/-- A campaign dict of the campaign-manager store, restricted to the fields
`update_target_status` touches. -/
structure MCampaign where
  name : String
  status : String
  targets : List MTarget
  metrics : MMetrics
deriving DecidableEq, Repr

/-- The target-search loop of `update_target_status`: set `status` and
`status_updated_at` on the first target whose `id` matches, merge the
optional `quiz_score` from `additional_data`, and `break`; `none` when no
target matches. -/
def setStatusFirst (now : ℚ) (recipientId status : String)
    (quizScoreData : Option Int) : List MTarget → Option (List MTarget)
  | [] => none
  | t :: ts =>
      if t.id = recipientId then
        some ({ t with
                 status := status,
                 status_updated_at := some now,
                 quiz_score :=
                   match quizScoreData with
                   | some s => some s
                   | none => t.quiz_score } :: ts)
      else
        (setStatusFirst now recipientId status quizScoreData ts).map (t :: ·)

/-- The metric bumps of `update_target_status`, keyed on the requested status
string; for `completed-quiz` with a provided `quiz_score` the running average
is rebuilt from the previous average and the new count. -/
def bumpMetrics (status : String) (quizScoreData : Option Int)
    (m : MMetrics) : MMetrics :=
  if status = "sent" then { m with emails_sent := m.emails_sent + 1 }
  else if status = "clicked" then { m with links_clicked := m.links_clicked + 1 }
  else if status = "completed-quiz" then
    let qc := m.quizzes_completed + 1
    match quizScoreData with
    | some s =>
        { m with
           quizzes_completed := qc,
           avg_quiz_score :=
             (m.avg_quiz_score * ((qc : ℚ) - 1) + (s : ℚ)) / (qc : ℚ) }
    | none => { m with quizzes_completed := qc }
  else m

/-- `CampaignManager.update_target_status`: look the campaign up; set the
requested status on the first matching target, whatever the current status is
(no transition rule is checked anywhere); bump the metrics; save. Returns
`False` with the store unchanged when the campaign or target is missing. -/
def update_target_status (now : ℚ) (campaigns : List (String × MCampaign))
    (campaignId recipientId status : String) (quizScoreData : Option Int) :
    Bool × List (String × MCampaign) :=
  match assocFind campaignId campaigns with
  | none => (false, campaigns)
  | some campaign =>
      match setStatusFirst now recipientId status quizScoreData campaign.targets with
      | none => (false, campaigns)
      | some ts =>
          let campaign' :=
            { campaign with
               targets := ts,
               metrics := bumpMetrics status quizScoreData campaign.metrics }
          (true, assocSet campaignId campaign' campaigns)

end CampaignManager

/-! ## `models/campaign.py` — `Target`, `CampaignMetrics`, `Campaign.update_metrics` -/

namespace Models

/-- The `Target` dataclass. -/
structure Target where
  email : String
  id : String
  status : String
  send_ts : Option ℚ
  click_ts : Option ℚ
  track_url : Option String
  message_id : Option String
  quiz_score : Option Int
  error : Option String
deriving DecidableEq, Repr

/-- The `CampaignMetrics` dataclass. -/
structure CampaignMetrics where
  click_rate : ℚ
  quiz_completion_rate : ℚ
  avg_quiz_score : ℚ
deriving DecidableEq, Repr

/-- `Campaign.update_metrics`, as a function from the recipient list and the
current metrics to the new metrics (the method mutates `self.metrics` in
place). With an empty recipient list the method returns early and the metrics
are left as they were. Note the average is taken over recipients whose
`quiz_score` is set, not over those whose status is `completed-quiz`. -/
def update_metrics (recipients : List Target) (metrics : CampaignMetrics) :
    CampaignMetrics :=
  if recipients.length = 0 then metrics
  else
    let sent_count := (recipients.filter fun r =>
      (["sent", "clicked", "completed-quiz"] : List String).contains r.status).length
    let clicked_count := (recipients.filter fun r =>
      (["clicked", "completed-quiz"] : List String).contains r.status).length
    let quiz_count := (recipients.filter fun r => r.status == "completed-quiz").length
    let quiz_scores := recipients.filterMap fun r => r.quiz_score
    { click_rate :=
        if sent_count > 0 then (clicked_count : ℚ) / (sent_count : ℚ) else 0,
      quiz_completion_rate :=
        if clicked_count > 0 then (quiz_count : ℚ) / (clicked_count : ℚ) else 0,
      avg_quiz_score :=
        if quiz_scores.length > 0 then
          ((quiz_scores.sum : Int) : ℚ) / (quiz_scores.length : ℚ)
        else 0 }

end Models

/-! ## Spec-side URL-query encoding, for comparison with the source

The spec's §6 states that every URL component is URL-query-encoded. The
source performs no encoding, so to compare the two behaviours we also define
the encoding the spec's words call for. -/

/-- The sixteen uppercase hex digits, as used in percent-escapes. -/
def hexCharUpper (n : Nat) : Char :=
  (['0', '1', '2', '3', '4', '5', '6', '7', '8', '9',
    'A', 'B', 'C', 'D', 'E', 'F']).getD n '0'

/-- Follows the spec's words, not the source: standard URL-query
percent-encoding of a string's UTF-8 bytes, leaving only the unreserved
characters (ALPHA / DIGIT / `-` `.` `_` `~`) unescaped. -/
def specUrlQueryEncode (s : String) : String :=
  String.mk ((strBytes s).flatMap fun b =>
    if (48 ≤ b ∧ b ≤ 57) ∨ (65 ≤ b ∧ b ≤ 90) ∨ (97 ≤ b ∧ b ≤ 122) ∨
        b = 45 ∨ b = 46 ∨ b = 95 ∨ b = 126 then
      [Char.ofNat b]
    else ['%', hexCharUpper (b / 16), hexCharUpper (b % 16)])

/-- The `&key=value` suffix the UTM loop of `generate_tracking_url` builds,
written as plain recursion so the loop's output can be stated in closed
form. -/
def renderParams : List (String × String) → String
  | [] => ""
  | kv :: rest => "&" ++ kv.1 ++ "=" ++ kv.2 ++ renderParams rest

/-! ## Helper lemmas: hex digests are ASCII, lowercase hex, 64 characters -/

theorem hexChar_mem (n : Nat) : hexChar n ∈ hexDigitChars := by
  unfold hexChar List.getD
  rcases h : hexDigitChars.get? n with _ | c
  · decide
  · exact List.getElem?_mem (List.get?_eq_getElem? hexDigitChars n ▸ h)

theorem hexDigitChars_ascii : ∀ c ∈ hexDigitChars, c.toNat < 128 := by decide

theorem toHex_data (bs : List Nat) :
    (toHex bs).data = bs.flatMap fun b => [hexChar (b / 16), hexChar (b % 16)] := rfl

theorem toHex_mem_hexDigit (bs : List Nat) :
    ∀ c ∈ (toHex bs).data, c ∈ hexDigitChars := by
  intro c hc
  rw [toHex_data] at hc
  rcases List.mem_flatMap.mp hc with ⟨b, _, hb⟩
  simp only [List.mem_cons, List.not_mem_nil, or_false] at hb
  rcases hb with h | h <;> exact h ▸ hexChar_mem _

theorem isAsciiStr_toHex (bs : List Nat) : isAsciiStr (toHex bs) = true := by
  unfold isAsciiStr
  rw [List.all_eq_true]
  intro c hc
  exact decide_eq_true (hexDigitChars_ascii c (toHex_mem_hexDigit bs c hc))

theorem toHex_length (bs : List Nat) : (toHex bs).length = 2 * bs.length := by
  show (toHex bs).data.length = 2 * bs.length
  rw [toHex_data]
  induction bs with
  | nil => rfl
  | cons b bs ih => simp [List.flatMap_cons, ih]; ring

theorem stateBytes_length (s : HState) : (stateBytes s).length = 32 := by
  simp [stateBytes, wordBytesBE]

theorem sha256_length (msg : List Nat) : (sha256 msg).length = 32 :=
  stateBytes_length _

theorem hmacSha256_length (key msg : List Nat) :
    (hmacSha256 key msg).length = 32 :=
  sha256_length _

/-! ## Helper lemmas about the signer -/

theorem generate_signature_length (k c r : String) :
    (TrackingService.generate_signature k c r).length = 64 := by
  unfold TrackingService.generate_signature
  rw [toHex_length, hmacSha256_length]

theorem isAsciiStr_generate_signature (k c r : String) :
    isAsciiStr (TrackingService.generate_signature k c r) = true :=
  isAsciiStr_toHex _

/-- The signature depends on the ids only through the encoded message
`"{campaign_id}|{recipient_id}"`. -/
theorem generate_signature_congr (k c r c' r' : String)
    (h : c ++ "|" ++ r = c' ++ "|" ++ r') :
    TrackingService.generate_signature k c r =
      TrackingService.generate_signature k c' r' := by
  unfold TrackingService.generate_signature
  rw [h]

/-- Verifying the signature the signer itself produced succeeds. -/
theorem verify_generate_self (k c r : String) :
    TrackingService.verify_signature k c r
      (TrackingService.generate_signature k c r) = Except.ok true := by
  unfold TrackingService.verify_signature compareDigest
  rw [isAsciiStr_generate_signature]
  simp

/-- Verifying any ASCII string other than the expected signature yields
`ok false` (the Python function returns `False`). -/
theorem verify_ok_false_of_ne (k c r s : String) (hs : isAsciiStr s = true)
    (hne : s ≠ TrackingService.generate_signature k c r) :
    TrackingService.verify_signature k c r s = Except.ok false := by
  unfold TrackingService.verify_signature compareDigest
  rw [hs, isAsciiStr_generate_signature]
  simp [hne]

theorem string_ne_of_length_ne {s t : String} (h : s.length ≠ t.length) :
    s ≠ t := fun e => h (e ▸ rfl)

/-! ## Claim C5 -/

/-- Claim C5: for every non-empty campaign id and recipient id under any
fixed secret key, verifying the signature the signer just produced returns
true, and signing is deterministic — in this pure-function embedding two
calls with the same inputs are the same application, so their results
coincide. -/
theorem c5_sign_roundtrip_deterministic (key c r : String)
    (_hc : c ≠ "") (_hr : r ≠ "") :
    TrackingService.verify_signature key c r
        (TrackingService.generate_signature key c r) = Except.ok true ∧
    TrackingService.generate_signature key c r =
      TrackingService.generate_signature key c r :=
  ⟨verify_generate_self key c r, rfl⟩

/-- Witness for C5 at key `"k"`, ids `"C1"`/`"T1"`. -/
theorem c5_witness :
    ("C1" : String) ≠ "" ∧ ("T1" : String) ≠ "" ∧
    TrackingService.verify_signature "k" "C1" "T1"
        (TrackingService.generate_signature "k" "C1" "T1") = Except.ok true :=
  ⟨by decide, by decide,
   (c5_sign_roundtrip_deterministic "k" "C1" "T1" (by decide) (by decide)).1⟩

/-! ## Claim C4 -/

/-- Claim C4 is false on the code: the signer MACs the string
`"{campaign_id}|{recipient_id}"`, and ids may themselves contain `|`, so the
distinct pairs `("a|b","c")` and `("a","b|c")` encode to the same message and
the signature of one verifies for the other. -/
theorem c4_counterexample :
    (("a|b", "c") ≠ (("a" : String), ("b|c" : String))) ∧
    TrackingService.verify_signature "default-secret-key" "a|b" "c"
      (TrackingService.generate_signature "default-secret-key" "a" "b|c") =
        Except.ok true := by
  refine ⟨by decide, ?_⟩
  rw [← generate_signature_congr "default-secret-key" "a|b" "c" "a" "b|c" (by decide)]
  exact verify_generate_self _ _ _

/-- Claim C4 (amended): acceptance depends on the pair only through the
encoded message — whenever `c ++ "|" ++ r = c' ++ "|" ++ r'`, including for
distinct pairs, the signature computed for `(c', r')` verifies for `(c, r)`;
the original injectivity claim fails exactly at such pairs. -/
theorem c4_amended_collision (key c r c' r' : String)
    (h : c ++ "|" ++ r = c' ++ "|" ++ r') :
    TrackingService.verify_signature key c r
      (TrackingService.generate_signature key c' r') = Except.ok true := by
  rw [← generate_signature_congr key c r c' r' h]
  exact verify_generate_self key c r

/-- Witness for the amended C4 at the colliding pairs `("x|y","z")` and
`("x","y|z")`. -/
theorem c4_witness :
    ("x|y" : String) ++ "|" ++ "z" = "x" ++ "|" ++ "y|z" ∧
    TrackingService.verify_signature "k" "x|y" "z"
      (TrackingService.generate_signature "k" "x" "y|z") = Except.ok true :=
  ⟨by decide, c4_amended_collision "k" "x|y" "z" "x" "y|z" (by decide)⟩

/-! ## Claim C10 -/

/-- Claim C10 is false on the code: `hmac.compare_digest` accepts `str`
arguments only when they are ASCII and raises `TypeError` otherwise, so a
signature string containing a non-ASCII character makes `verify_signature`
raise instead of returning `False`. -/
theorem c10_counterexample :
    TrackingService.verify_signature "default-secret-key" "C1" "T1" "é" =
      Except.error "TypeError" ∧
    ¬ TrackingService.verify_signature "default-secret-key" "C1" "T1" "é" =
      Except.ok false := by
  refine ⟨rfl, fun h => ?_⟩
  have hr : TrackingService.verify_signature "default-secret-key" "C1" "T1" "é" =
      Except.error "TypeError" := rfl
  rw [h] at hr
  exact Except.noConfusion hr

/-- Claim C10 (amended): verification is total and returns a boolean — false
on any non-matching signature — for every ASCII signature string; for a
signature containing non-ASCII characters it raises `TypeError` instead. -/
theorem c10_amended_total_on_ascii (key c r s : String)
    (hs : isAsciiStr s = true) :
    TrackingService.verify_signature key c r s =
      Except.ok (s == TrackingService.generate_signature key c r) := by
  unfold TrackingService.verify_signature compareDigest
  rw [hs, isAsciiStr_generate_signature]
  simp

/-- Witness for the amended C10 at the malformed but ASCII signature
`"deadbeef"`. -/
theorem c10_witness :
    isAsciiStr "deadbeef" = true ∧
    TrackingService.verify_signature "k" "C1" "T1" "deadbeef" =
      Except.ok ("deadbeef" == TrackingService.generate_signature "k" "C1" "T1") :=
  ⟨by decide, c10_amended_total_on_ascii "k" "C1" "T1" "deadbeef" (by decide)⟩

/-! ## Claim C8 -/

/-- Claim C8: when the `TRACKING_SECRET_KEY` environment lookup comes back
empty, the service falls back to the fixed literal `"default-secret-key"`;
any two instances built that way agree on every signature, and a signature
computed directly from the publicly known constant passes verification. -/
theorem c8_default_secret_fallback (e1 e2 : Option String) (c r : String)
    (h1 : e1 = none) (h2 : e2 = none) :
    TrackingService.initSecretKey e1 = "default-secret-key" ∧
    TrackingService.generate_signature (TrackingService.initSecretKey e1) c r =
      TrackingService.generate_signature (TrackingService.initSecretKey e2) c r ∧
    TrackingService.verify_signature (TrackingService.initSecretKey e1) c r
      (TrackingService.generate_signature "default-secret-key" c r) =
        Except.ok true := by
  subst h1; subst h2
  exact ⟨rfl, rfl, verify_generate_self _ _ _⟩

/-- Witness for C8 with both environment lookups empty, at ids
`"C1"`/`"T1"`. -/
theorem c8_witness :
    TrackingService.verify_signature (TrackingService.initSecretKey none) "C1" "T1"
      (TrackingService.generate_signature "default-secret-key" "C1" "T1") =
        Except.ok true :=
  (c8_default_secret_fallback none none "C1" "T1" rfl rfl).2.2

/-! ## Helper lemmas about the persistence click path -/

/-- The recipient loop of `track_click_and_save` rewrites the first matching
recipient — whatever its current status — and leaves the rest alone. -/
theorem markClicked_first_match (now : ℚ) (rid : String)
    (pre post : List Persistence.PRecipient) (r : Persistence.PRecipient)
    (hnot : ∀ r' ∈ pre, r'.id ≠ rid) (hr : r.id = rid) :
    Persistence.markClicked now rid (pre ++ r :: post) =
      some (pre ++ { r with status := "clicked", click_ts := some now } :: post) := by
  induction pre with
  | nil => simp [Persistence.markClicked, hr]
  | cons p ps ih =>
      have hp : p.id ≠ rid := hnot p (by simp)
      have ih' := ih fun r' h' => hnot r' (List.mem_cons_of_mem p h')
      simp [List.cons_append, Persistence.markClicked, if_neg hp, ih']

/-! ## Claim C2 -/

/-- Claim C2 is false on the code: on a target already in `completed-quiz`
with `click_ts` set, a further click recording sets the status back to
`clicked` and overwrites `click_ts` with the new time — status regresses and
`click_ts` is not first-click-stable. -/
theorem c2_counterexample :
    Persistence.track_click_and_save 200
      [("C1", { name := "camp", status := "active", recipients :=
        [{ id := "T1", email := "a@example.com", status := "completed-quiz",
           send_ts := some 50, click_ts := some 100 }] })] "C1" "T1" =
    (true, [("C1", { name := "camp", status := "active", recipients :=
        [{ id := "T1", email := "a@example.com", status := "clicked",
           send_ts := some 50, click_ts := some 200 }] })]) := by decide

/-- Claim C2 (amended): the click-recording operation is last-click-wins —
whenever both ids are non-empty, the campaign exists and some recipient
matches, it sets the first matching recipient's status to `clicked` and
overwrites its `click_ts` with the current time, regardless of the previous
status; it appends nothing to any event log. -/
theorem c2_amended_last_click_wins (now : ℚ)
    (cs : List (String × Persistence.PCampaign)) (cid rid : String)
    (camp : Persistence.PCampaign)
    (pre post : List Persistence.PRecipient) (r : Persistence.PRecipient)
    (hcid : cid ≠ "") (hrid : rid ≠ "")
    (hfind : assocFind cid cs = some camp)
    (hsplit : camp.recipients = pre ++ r :: post)
    (hnot : ∀ r' ∈ pre, r'.id ≠ rid) (hr : r.id = rid) :
    Persistence.track_click_and_save now cs cid rid =
      (true, assocSet cid { camp with recipients :=
        pre ++ { r with status := "clicked", click_ts := some now } :: post } cs) := by
  simp only [Persistence.track_click_and_save, hfind, hsplit,
    markClicked_first_match now rid pre post r hnot hr,
    if_pos (And.intro hcid hrid)]

/-- Witness for the amended C2: a concrete store in which the matching
recipient sits behind one non-matching recipient and is already
`completed-quiz`; the call regresses it to `clicked` at the new time. -/
theorem c2_witness :
    Persistence.track_click_and_save 200
      [("C1", { name := "camp", status := "active", recipients :=
        [{ id := "T0", email := "z@example.com", status := "queued",
           send_ts := none, click_ts := none },
         { id := "T1", email := "a@example.com", status := "completed-quiz",
           send_ts := some 50, click_ts := some 100 }] })] "C1" "T1" =
    (true, [("C1", { name := "camp", status := "active", recipients :=
        [{ id := "T0", email := "z@example.com", status := "queued",
           send_ts := none, click_ts := none },
         { id := "T1", email := "a@example.com", status := "clicked",
           send_ts := some 50, click_ts := some 200 }] })]) := by
  have h := c2_amended_last_click_wins 200
    [("C1", { name := "camp", status := "active", recipients :=
      [{ id := "T0", email := "z@example.com", status := "queued",
         send_ts := none, click_ts := none },
       { id := "T1", email := "a@example.com", status := "completed-quiz",
         send_ts := some 50, click_ts := some 100 }] })] "C1" "T1"
    { name := "camp", status := "active", recipients :=
      [{ id := "T0", email := "z@example.com", status := "queued",
         send_ts := none, click_ts := none },
       { id := "T1", email := "a@example.com", status := "completed-quiz",
         send_ts := some 50, click_ts := some 100 }] }
    [{ id := "T0", email := "z@example.com", status := "queued",
       send_ts := none, click_ts := none }] []
    { id := "T1", email := "a@example.com", status := "completed-quiz",
      send_ts := some 50, click_ts := some 100 }
    (by decide) (by decide) (by decide) rfl (by decide) rfl
  exact h.trans (by decide)

/-! ## Claim C1 -/

/-- Claim C1 is right about what a signed click endpoint must do, and the
code does not do it: `"deadbeef"` is not the valid signature for
`("C1","T1")` (verification would return false), yet the persistence click
path records the click and mutates the target anyway — it never takes or
checks a signature — and `TrackingService.record_click` appends a click
event unconditionally, also without any signature argument. -/
theorem c1_code_bug_click_ignores_signature :
    TrackingService.verify_signature "default-secret-key" "C1" "T1" "deadbeef" =
      Except.ok false ∧
    Persistence.track_click_and_save 200
      [("C1", { name := "camp", status := "active", recipients :=
        [{ id := "T1", email := "a@example.com", status := "clicked",
           send_ts := some 50, click_ts := some 100 }] })] "C1" "T1" =
    (true, [("C1", { name := "camp", status := "active", recipients :=
        [{ id := "T1", email := "a@example.com", status := "clicked",
           send_ts := some 50, click_ts := some 200 }] })]) ∧
    (TrackingService.record_click "E1" 200 "C1" "T1" none none []).1.length = 1 := by
  refine ⟨?_, by decide, by decide⟩
  apply verify_ok_false_of_ne
  · decide
  · apply string_ne_of_length_ne
    rw [generate_signature_length]
    decide

/-! ## Helper lemmas about the campaign-manager target update -/

/-- The target loop of `update_target_status` rewrites the first matching
target to the requested status — whatever its current status — and leaves
the rest alone. -/
theorem setStatusFirst_first_match (now : ℚ) (rid st : String) (q : Option Int)
    (pre post : List CampaignManager.MTarget) (t : CampaignManager.MTarget)
    (hnot : ∀ t' ∈ pre, t'.id ≠ rid) (ht : t.id = rid) :
    CampaignManager.setStatusFirst now rid st q (pre ++ t :: post) =
      some (pre ++
        { t with status := st, status_updated_at := some now,
                 quiz_score := match q with
                               | some s => some s
                               | none => t.quiz_score } :: post) := by
  induction pre with
  | nil => simp [CampaignManager.setStatusFirst, ht]
  | cons p ps ih =>
      have hp : p.id ≠ rid := hnot p (by simp)
      have ih' := ih fun t' h' => hnot t' (List.mem_cons_of_mem p h')
      simp [List.cons_append, CampaignManager.setStatusFirst, if_neg hp, ih']

/-! ## Claim C3 -/

/-- Claim C3 is false on the code: on a target still in `queued`, recording a
quiz completion succeeds — `update_target_status` sets the status to
`completed-quiz`, stores the score and bumps the metrics with no state check
and no `InvalidState` anywhere, and `record_quiz_completion` appends its
event unconditionally. -/
theorem c3_counterexample :
    CampaignManager.update_target_status 300
      [("C1", { name := "camp",
                status := "in_progress",
                targets := [{ id := "T1", email := "a@example.com",
                              status := "queued",
                              status_updated_at := none, quiz_score := none }],
                metrics := { total_targets := 1, emails_sent := 0,
                             emails_opened := 0, links_clicked := 0,
                             quizzes_completed := 0, avg_quiz_score := 0 } })]
      "C1" "T1" "completed-quiz" (some 4) =
    (true,
     [("C1", { name := "camp",
               status := "in_progress",
               targets := [{ id := "T1", email := "a@example.com",
                             status := "completed-quiz",
                             status_updated_at := some 300,
                             quiz_score := some 4 }],
               metrics := { total_targets := 1, emails_sent := 0,
                            emails_opened := 0, links_clicked := 0,
                            quizzes_completed := 1, avg_quiz_score := 4 } })]) ∧
    (TrackingService.record_quiz_completion "E2" 300 "C1" "T1" 4 [] []).1.length = 1 := by
  refine ⟨?_, by decide⟩
  simp [CampaignManager.update_target_status, assocFind, assocSet,
    CampaignManager.setStatusFirst, CampaignManager.bumpMetrics]

/-- Claim C3 (amended): the quiz-completion recording performs no state
check — whenever the campaign exists and some target matches, the requested
status (in particular `completed-quiz`) is written over any current status,
the provided score is stored and the metrics bumped; and the quiz event is
appended to the log unconditionally. No `InvalidState` condition exists. -/
theorem c3_amended_no_state_check (now : ℚ)
    (cs : List (String × CampaignManager.MCampaign)) (cid rid st : String)
    (q : Option Int) (camp : CampaignManager.MCampaign)
    (pre post : List CampaignManager.MTarget) (t : CampaignManager.MTarget)
    (eid : String) (ts : Nat) (score : Int) (answers : List (String × String))
    (clicksData : List TrackingService.TrackEvent)
    (hfind : assocFind cid cs = some camp)
    (hsplit : camp.targets = pre ++ t :: post)
    (hnot : ∀ t' ∈ pre, t'.id ≠ rid) (ht : t.id = rid) :
    CampaignManager.update_target_status now cs cid rid st q =
      (true, assocSet cid
        { camp with
           targets := pre ++
             { t with status := st, status_updated_at := some now,
                      quiz_score := match q with
                                    | some s => some s
                                    | none => t.quiz_score } :: post,
           metrics := CampaignManager.bumpMetrics st q camp.metrics } cs) ∧
    (TrackingService.record_quiz_completion eid ts cid rid score answers
        clicksData).1.length = clicksData.length + 1 := by
  constructor
  · simp only [CampaignManager.update_target_status, hfind, hsplit,
      setStatusFirst_first_match now rid st q pre post t hnot ht]
  · simp [TrackingService.record_quiz_completion]

/-- Witness for the amended C3: a concrete store whose only target is
`queued`; the `completed-quiz` update succeeds anyway and the event log
grows. -/
theorem c3_witness :
    CampaignManager.update_target_status 300
      [("C1", { name := "camp", status := "in_progress", targets := [{ id := "T1", email := "a@example.com", status := "queued", status_updated_at := none, quiz_score := none }], metrics := { total_targets := 1, emails_sent := 1, emails_opened := 0, links_clicked := 1, quizzes_completed := 0, avg_quiz_score := 0 } })]
      "C1" "T1" "completed-quiz" (some 5) =
    (true,
     [("C1", { name := "camp", status := "in_progress", targets := [{ id := "T1", email := "a@example.com", status := "completed-quiz", status_updated_at := some 300, quiz_score := some 5 }], metrics := { total_targets := 1, emails_sent := 1, emails_opened := 0, links_clicked := 1, quizzes_completed := 1, avg_quiz_score := 5 } })]) ∧
    (TrackingService.record_quiz_completion "E3" 300 "C1" "T1" 5 [] []).1.length =
      1 := by
  have h := c3_amended_no_state_check 300
    [("C1", { name := "camp", status := "in_progress", targets := [{ id := "T1", email := "a@example.com", status := "queued", status_updated_at := none, quiz_score := none }], metrics := { total_targets := 1, emails_sent := 1, emails_opened := 0, links_clicked := 1, quizzes_completed := 0, avg_quiz_score := 0 } })]
    "C1" "T1" "completed-quiz" (some 5)
    { name := "camp", status := "in_progress", targets := [{ id := "T1", email := "a@example.com", status := "queued", status_updated_at := none, quiz_score := none }], metrics := { total_targets := 1, emails_sent := 1, emails_opened := 0, links_clicked := 1, quizzes_completed := 0, avg_quiz_score := 0 } }
    [] []
    { id := "T1", email := "a@example.com", status := "queued", status_updated_at := none, quiz_score := none }
    "E3" 300 5 [] []
    rfl rfl (by simp) rfl
  refine ⟨h.1.trans ?_, h.2⟩
  simp [assocSet, CampaignManager.bumpMetrics]

/-! ## Helper lemmas about the metrics computation -/

theorem contains3_eq_decide (s a b c : String) :
    ([a, b, c] : List String).contains s = decide (s = a ∨ s = b ∨ s = c) := by
  by_cases h1 : s = a <;> by_cases h2 : s = b <;> by_cases h3 : s = c <;>
    simp [h1, h2, h3]

theorem beq_eq_decide_str (s t : String) : (s == t) = decide (s = t) := by
  by_cases h : s = t <;> simp [h]

theorem length_filterMap_quiz (rs : List Models.Target) :
    (rs.filterMap fun r => r.quiz_score).length =
      rs.countP fun r => r.quiz_score.isSome := by
  induction rs with
  | nil => rfl
  | cons r rs ih =>
      cases h : r.quiz_score <;>
        simp [List.filterMap_cons, List.countP_cons, h, ih]

theorem sum_filterMap_quiz (rs : List Models.Target) :
    (((rs.filterMap fun r => r.quiz_score).sum : Int) : ℚ) =
      (rs.map fun r => ((r.quiz_score.getD 0 : Int) : ℚ)).sum := by
  induction rs with
  | nil => simp
  | cons r rs ih =>
      cases h : r.quiz_score <;> simp [List.filterMap_cons, h, ih]

/-! ## Claim C6 -/

/-- Claim C6 is false on the code in two places: with zero targets
`update_metrics` returns early and leaves whatever metrics were already
stored (here a non-zero click rate) instead of producing zeros; and
`avg_quiz_score` averages `quiz_score` over the recipients that have one
set — a queued target with a stray score is averaged in even though no
target has status `completed-quiz`, where the claim requires 0. -/
theorem c6_counterexample :
    Models.update_metrics []
      { click_rate := 1/2, quiz_completion_rate := 1/3, avg_quiz_score := 5 } =
      { click_rate := 1/2, quiz_completion_rate := 1/3, avg_quiz_score := 5 } ∧
    ((1 : ℚ)/2 ≠ 0) ∧
    (Models.update_metrics
      [{ email := "a@example.com", id := "T1", status := "queued",
         send_ts := none, click_ts := none, track_url := none,
         message_id := none, quiz_score := some 4, error := none }]
      { click_rate := 0, quiz_completion_rate := 0, avg_quiz_score := 0 }).avg_quiz_score
      = 4 := by
  refine ⟨rfl, by norm_num, ?_⟩
  simp [Models.update_metrics]

/-- Claim C6 (amended): for a non-empty recipient list the click rate is the
clicked-or-later count over the sent-or-later count (0 when that denominator
is 0) and the quiz completion rate is the completed-quiz count over the
clicked-or-later count (0 when that denominator is 0), but `avg_quiz_score`
is the mean of `quiz_score` over the recipients whose score is set — not
over those with status `completed-quiz` — and with an empty recipient list
the metrics are left exactly as they were rather than being zeroed. -/
theorem c6_amended_metrics (rs : List Models.Target) (m : Models.CampaignMetrics) :
    (rs = [] → Models.update_metrics rs m = m) ∧
    (rs ≠ [] → Models.update_metrics rs m =
      { click_rate :=
          if 0 < rs.countP (fun r => decide (r.status = "sent" ∨
              r.status = "clicked" ∨ r.status = "completed-quiz")) then
            (rs.countP (fun r => decide (r.status = "clicked" ∨
                r.status = "completed-quiz")) : ℚ) /
              (rs.countP (fun r => decide (r.status = "sent" ∨
                  r.status = "clicked" ∨ r.status = "completed-quiz")) : ℚ)
          else 0,
        quiz_completion_rate :=
          if 0 < rs.countP (fun r => decide (r.status = "clicked" ∨
              r.status = "completed-quiz")) then
            (rs.countP (fun r => decide (r.status = "completed-quiz")) : ℚ) /
              (rs.countP (fun r => decide (r.status = "clicked" ∨
                  r.status = "completed-quiz")) : ℚ)
          else 0,
        avg_quiz_score :=
          if 0 < rs.countP (fun r => r.quiz_score.isSome) then
            (rs.map fun r => ((r.quiz_score.getD 0 : Int) : ℚ)).sum /
              (rs.countP (fun r => r.quiz_score.isSome) : ℚ)
          else 0 }) := by
  constructor
  · intro h; subst h; rfl
  · intro h
    have e1 : (rs.filter fun r =>
        (["sent", "clicked", "completed-quiz"] : List String).contains r.status).length =
        rs.countP fun r => decide (r.status = "sent" ∨ r.status = "clicked" ∨
          r.status = "completed-quiz") := by
      rw [← List.countP_eq_length_filter]
      congr 1
      funext r
      exact contains3_eq_decide r.status "sent" "clicked" "completed-quiz"
    have e2 : (rs.filter fun r =>
        (["clicked", "completed-quiz"] : List String).contains r.status).length =
        rs.countP fun r => decide (r.status = "clicked" ∨
          r.status = "completed-quiz") := by
      rw [← List.countP_eq_length_filter]
      congr 1
      funext r
      by_cases h1 : r.status = "clicked" <;> by_cases h2 : r.status = "completed-quiz" <;>
        simp [h1, h2]
    have e3 : (rs.filter fun r => r.status == "completed-quiz").length =
        rs.countP fun r => decide (r.status = "completed-quiz") := by
      rw [← List.countP_eq_length_filter]
      congr 1
    have e4 := length_filterMap_quiz rs
    have e5 := sum_filterMap_quiz rs
    have hlen : ¬ rs.length = 0 := by simpa using h
    unfold Models.update_metrics
    rw [if_neg hlen]
    simp only [e1, e2, e3, e4, e5]

/-- Witness for the amended C6 at a single clicked recipient with no score:
click rate 1, quiz completion rate 0, average score 0. -/
theorem c6_witness :
    Models.update_metrics
      [{ email := "a@example.com", id := "T1", status := "clicked",
         send_ts := none, click_ts := some 100, track_url := none,
         message_id := none, quiz_score := none, error := none }]
      { click_rate := 0, quiz_completion_rate := 0, avg_quiz_score := 0 } =
      { click_rate := 1, quiz_completion_rate := 0, avg_quiz_score := 0 } := by
  have h := (c6_amended_metrics
    [{ email := "a@example.com", id := "T1", status := "clicked",
       send_ts := none, click_ts := some 100, track_url := none,
       message_id := none, quiz_score := none, error := none }]
    { click_rate := 0, quiz_completion_rate := 0, avg_quiz_score := 0 }).2
    (by simp)
  rw [h]
  norm_num [List.countP_cons]
  decide

/-! ## Helper lemma about the UTM-parameter loop -/

theorem foldl_utm_renderParams (ps : List (String × String)) (acc : String) :
    ps.foldl (fun u kv => u ++ "&" ++ kv.1 ++ "=" ++ kv.2) acc =
      acc ++ renderParams ps := by
  induction ps generalizing acc with
  | nil => simp [renderParams]
  | cons p ps ih =>
      rw [List.foldl_cons, ih]
      simp [renderParams, String.append_assoc]

/-! ## Claim C7 -/

/-- Claim C7 is false on the code: no component of the tracking URL is
URL-query-encoded — a campaign id containing a space is embedded verbatim
(the produced URL contains a raw space) and the result differs from the
percent-encoded form the spec's format requires. -/
theorem c7_counterexample :
    ((TrackingService.generate_tracking_url "http://x/track" "k" "C 1" "T1"
        []).data.contains ' ') = true ∧
    TrackingService.generate_tracking_url "http://x/track" "k" "C 1" "T1" [] ≠
      "http://x/track" ++ "?track=1&cid=" ++ specUrlQueryEncode "C 1" ++
        "&rid=" ++ specUrlQueryEncode "T1" ++ "&sig=" ++
        TrackingService.generate_signature "k" "C 1" "T1" := by
  exact ⟨by decide, by decide⟩

/-- Claim C7 (amended): the tracking URL is the plain, unencoded
concatenation `{base_url}?track=1&cid={campaign_id}&rid={recipient_id}&sig=
{signature}` followed by `&key=value` for each extra parameter in order,
with every component embedded verbatim; the signature component is the
64-character lowercase-hex digest of the MAC. The separate persistence-layer
generator emits only `{base}?cid={campaign_id}&rid={recipient_id}` — no
`track` marker and no signature. -/
theorem c7_amended_url_format (baseUrl key cid rid : String)
    (ps : List (String × String)) :
    TrackingService.generate_tracking_url baseUrl key cid rid ps =
      baseUrl ++ "?track=1&cid=" ++ cid ++ "&rid=" ++ rid ++ "&sig=" ++
        TrackingService.generate_signature key cid rid ++ renderParams ps ∧
    (TrackingService.generate_signature key cid rid).data.all
      (fun ch => hexDigitChars.contains ch) = true ∧
    (TrackingService.generate_signature key cid rid).length = 64 ∧
    Persistence.generate_tracking_url cid rid =
      "http://localhost:8501/track" ++ "?cid=" ++ cid ++ "&rid=" ++ rid := by
  refine ⟨?_, ?_, generate_signature_length key cid rid, rfl⟩
  · unfold TrackingService.generate_tracking_url
    rw [foldl_utm_renderParams]
  · rw [List.all_eq_true]
    intro ch hch
    have hm : ch ∈ hexDigitChars :=
      toHex_mem_hexDigit (hmacSha256 (strBytes key) (strBytes (cid ++ "|" ++ rid))) ch hch
    simpa using hm

/-! ## Claim C9 -/

/-- Claim C9 is false on the code: with an empty campaign id, link generation
does not fail — it returns the malformed URL with an empty `cid` component. -/
theorem c9_counterexample :
    TrackingService.generate_tracking_url "http://x" "k" "" "T1" [] =
      "http://x?track=1&cid=&rid=T1&sig=" ++
        TrackingService.generate_signature "k" "" "T1" := by
  unfold TrackingService.generate_tracking_url
  rfl

/-- Claim C9 (amended): the generator performs no identifier validation at
all — for ids that are empty or contain characters unsafe in a URL query
component, it still returns a URL with the ids embedded verbatim; no
`InvalidIdentifier` condition exists anywhere in the source. -/
theorem c9_amended_no_validation (baseUrl key cid rid : String)
    (_h : cid = "" ∨ rid = "" ∨ specUrlQueryEncode cid ≠ cid ∨
      specUrlQueryEncode rid ≠ rid) :
    TrackingService.generate_tracking_url baseUrl key cid rid [] =
      baseUrl ++ "?track=1&cid=" ++ cid ++ "&rid=" ++ rid ++ "&sig=" ++
        TrackingService.generate_signature key cid rid := by
  unfold TrackingService.generate_tracking_url
  rfl

/-- Witness for the amended C9 at a campaign id containing `&`, which any
URL-query encoding must escape. -/
theorem c9_witness :
    TrackingService.generate_tracking_url "http://x" "k" "C&1" "T1" [] =
      "http://x" ++ "?track=1&cid=" ++ "C&1" ++ "&rid=" ++ "T1" ++ "&sig=" ++
        TrackingService.generate_signature "k" "C&1" "T1" :=
  c9_amended_no_validation "http://x" "k" "C&1" "T1"
    (Or.inr (Or.inr (Or.inl (by decide))))

end PhishTrain
